import Mathlib

/-!
Verification development for the x86_64 EFI boot loader (`src/loader.c`,
`src/efi.h`).  The loader is shallowly embedded: `findAcpiRsdp` models the
configuration-table scan `FindAcpiRsdp`, and `efi_main` models the whole
`efi_main` routine as a pure function from a description of the firmware's
behaviour (`Firmware`) to the ordered list of boot-service calls the loader
issues (`Event`) together with the final outcome (`Outcome`).  Machine
integers are `Nat` with an explicit `% 2^64` where 64-bit overflow matters.
-/

namespace Loader

/-- `EFI_GUID` from `efi.h`: `Data1 : UINT32`, `Data2 Data3 : UINT16`,
`Data4 : UINT8[8]` (the eight bytes modelled as a list). -/
structure EfiGuid where
  data1 : Nat
  data2 : Nat
  data3 : Nat
  data4 : List Nat
deriving DecidableEq

/-- `EFI_CONFIGURATION_TABLE` from `efi.h`: a vendor GUID plus the table
pointer (`VendorTable`, modelled as a numeric address). -/
structure ConfigTable where
  vendorGuid : EfiGuid
  vendorTable : Nat
deriving DecidableEq

/-- `Acpi20TableGuid` from `loader.c` line 99. -/
def acpi20TableGuid : EfiGuid :=
  ⟨0x8868e871, 0xe4f1, 0x11d3, [0xbc, 0x22, 0x00, 0x80, 0xc7, 0x3c, 0x88, 0x81]⟩

/-- `Acpi10TableGuid` from `loader.c` line 100. -/
def acpi10TableGuid : EfiGuid :=
  ⟨0xeb9d2d30, 0x2d88, 0x11d3, [0x9a, 0x16, 0x00, 0x90, 0x27, 0x3f, 0xc1, 0x4d]⟩

/-- The comparison performed by the first loop of `FindAcpiRsdp`
(`loader.c` lines 119-121): only `Data1`, `Data2` and `Data3` are
compared against `Acpi20TableGuid`; the `Data4` bytes are not consulted. -/
def acpiMatch20 (g : EfiGuid) : Bool :=
  g.data1 == acpi20TableGuid.data1 &&
  g.data2 == acpi20TableGuid.data2 &&
  g.data3 == acpi20TableGuid.data3

/-- The comparison performed by the second loop of `FindAcpiRsdp`
(`loader.c` lines 131-133): only `Data1`, `Data2` and `Data3` are
compared against `Acpi10TableGuid`. -/
def acpiMatch10 (g : EfiGuid) : Bool :=
  g.data1 == acpi10TableGuid.data1 &&
  g.data2 == acpi10TableGuid.data2 &&
  g.data3 == acpi10TableGuid.data3

/-- `FindAcpiRsdp` (`loader.c` lines 110-139): scan the configuration
tables once for an ACPI 2.0 match, then (only if none was found) once for
an ACPI 1.0 match; each loop returns the `VendorTable` pointer of the
first matching entry, and with no match at all the result is the null
pointer `0`. -/
def findAcpiRsdp (tables : List ConfigTable) : Nat :=
  match tables.find? (fun e => acpiMatch20 e.vendorGuid) with
  | some e => e.vendorTable
  | none =>
    match tables.find? (fun e => acpiMatch10 e.vendorGuid) with
    | some e => e.vendorTable
    | none => 0

/-- `KERNEL_LOAD_ADDR` (`loader.c` line 20): 1 MiB. -/
def KERNEL_LOAD_ADDR : Nat := 0x100000

/-- `BOOT_INFO_MAGIC` (`loader.c` line 37). -/
def BOOT_INFO_MAGIC : Nat := 0x424F4F54494E464F

/-- `EfiLoaderCode` is value 1 of the `EFI_MEMORY_TYPE` enum in `efi.h`. -/
def efiLoaderCode : Nat := 1

/-- `Pages = (KernelSize + 4095) / 4096` (`loader.c` line 245), computed
in `UINTN` (64-bit unsigned) arithmetic, so the addition wraps mod 2^64. -/
def pagesFor (kernelSize : Nat) : Nat :=
  ((kernelSize + 4095) % 2 ^ 64) / 4096

/-- `struct boot_info` (`loader.c` lines 24-35); every field is a
`UINT64`. -/
structure BootInfo where
  magic : Nat
  mem_map_addr : Nat
  mem_map_size : Nat
  mem_map_desc_size : Nat
  framebuffer_addr : Nat
  framebuffer_width : Nat
  framebuffer_height : Nat
  framebuffer_pitch : Nat
  acpi_rsdp : Nat
  num_cpus : Nat
deriving DecidableEq

/-- One call issued by the loader against the firmware boot-service
surface, in program order.  Serial-port output is raw port I/O, not a
firmware service, and is not an event. -/
inductive Event where
  | handleProtocolLoadedImage
  | handleProtocolFileSystem
  | openVolume
  | openKernelFile
  | getFileInfo
  | allocatePagesAt (memType pages addr : Nat)
  | allocatePagesAny (memType pages : Nat)
  | readFile (bufferSize : Nat)
  | closeKernelFile
  | closeRootDir
  | getMemoryMap
  | exitBootServices (mapKey : Nat)
deriving DecidableEq

/-- How a run of `efi_main` ends.  `failHalt` is the `halt:` label (print a
message, then spin in `hlt` forever); `postExitHalt` is the silent `hlt`
loop entered when the retried `ExitBootServices` also fails; `kernelJump`
is the final non-returning call into the kernel entry point. -/
inductive Outcome where
  | failHalt
  | postExitHalt
  | kernelJump (entry : Nat) (info : BootInfo)
deriving DecidableEq

/-- The behaviour of the firmware across one run of `efi_main`: the status
of each boot-service call the loader can make, in program order, plus the
values the firmware writes through the out-parameters.  `Bool` fields are
`true` when the call succeeds (`EFI_ERROR(status)` is false). -/
structure Firmware where
  /-- `HandleProtocol(ImageHandle, LoadedImageProtocol, ...)` succeeds. -/
  handleLoadedImageOk : Bool
  /-- `HandleProtocol(DeviceHandle, SimpleFileSystemProtocol, ...)` succeeds. -/
  handleFileSystemOk : Bool
  /-- `Volume->OpenVolume` succeeds. -/
  openVolumeOk : Bool
  /-- `RootDir->Open(KERNEL_PATH)` succeeds. -/
  openKernelFileOk : Bool
  /-- `KernelFile->GetInfo` succeeds. -/
  getInfoOk : Bool
  /-- `FileInfo->FileSize`, a `UINT64`. -/
  fileSize : Nat
  /-- `AllocatePages(AllocateAddress, ...)` at `KERNEL_LOAD_ADDR` succeeds. -/
  allocAtAddrOk : Bool
  /-- The fallback `AllocatePages(AllocateAnyPages, ...)` succeeds. -/
  allocAnyOk : Bool
  /-- Address written to `KernelAddr` by the fallback allocation. -/
  allocAnyAddr : Nat
  /-- `KernelFile->Read` returns a success status. -/
  readOk : Bool
  /-- Byte count written back through `&KernelSize` by `Read`. -/
  readBytes : Nat
  /-- `SystemTable->ConfigurationTable`, as a list of entries. -/
  configTables : List ConfigTable
  /-- Link-time address of the static `MemoryMapBuffer`. -/
  memoryMapBufferAddr : Nat
  /-- First `GetMemoryMap` succeeds. -/
  memMap1Ok : Bool
  memMap1Size : Nat
  memMap1Key : Nat
  memMap1DescSize : Nat
  memMap1DescVersion : Nat
  /-- First `ExitBootServices` succeeds. -/
  exit1Ok : Bool
  /-- Status of the re-capture `GetMemoryMap` (the code discards it). -/
  memMap2Ok : Bool
  memMap2Size : Nat
  memMap2Key : Nat
  memMap2DescSize : Nat
  memMap2DescVersion : Nat
  /-- Retried `ExitBootServices` succeeds. -/
  exit2Ok : Bool
deriving DecidableEq

/-- The part of `efi_main` from the kernel read (`loader.c` line 261) to
the end, parameterised by the trace so far, the address the kernel pages
were actually allocated at, and `KernelSize`.  `Read` writes the
transferred byte count back through `&KernelSize`, but the code never
consults it afterwards, so the model drops it. -/
def efiMainTail (fw : Firmware) (t : List Event) (kernelAddr kernelSize : Nat) :
    List Event × Outcome :=
  let t8 := t ++ [Event.readFile kernelSize]
  if fw.readOk = false then (t8, Outcome.failHalt) else
  let t9 := t8 ++ [Event.closeKernelFile, Event.closeRootDir]
  let acpiRsdp := findAcpiRsdp fw.configTables
  let t10 := t9 ++ [Event.getMemoryMap]
  if fw.memMap1Ok = false then (t10, Outcome.failHalt) else
  let info : BootInfo :=
    { magic := BOOT_INFO_MAGIC
      mem_map_addr := fw.memoryMapBufferAddr
      mem_map_size := fw.memMap1Size
      mem_map_desc_size := fw.memMap1DescSize
      framebuffer_addr := 0
      framebuffer_width := 0
      framebuffer_height := 0
      framebuffer_pitch := 0
      acpi_rsdp := acpiRsdp
      num_cpus := 0 }
  let t11 := t10 ++ [Event.exitBootServices fw.memMap1Key]
  if fw.exit1Ok = true then (t11, Outcome.kernelJump kernelAddr info) else
  -- Memory map may have changed: re-capture once, ignoring the returned
  -- status, refresh only `BootInfo.mem_map_size`, and retry the exit once.
  let t12 := t11 ++ [Event.getMemoryMap]
  let info2 := { info with mem_map_size := fw.memMap2Size }
  let t13 := t12 ++ [Event.exitBootServices fw.memMap2Key]
  if fw.exit2Ok = true then (t13, Outcome.kernelJump kernelAddr info2) else
  (t13, Outcome.postExitHalt)

/-- `efi_main` (`loader.c` lines 150-346) as a function from the firmware
behaviour to the trace of boot-service calls and the final outcome.  Every
`goto halt` becomes `Outcome.failHalt`. -/
def efi_main (fw : Firmware) : List Event × Outcome :=
  let t1 := [Event.handleProtocolLoadedImage]
  if fw.handleLoadedImageOk = false then (t1, Outcome.failHalt) else
  let t2 := t1 ++ [Event.handleProtocolFileSystem]
  if fw.handleFileSystemOk = false then (t2, Outcome.failHalt) else
  let t3 := t2 ++ [Event.openVolume]
  if fw.openVolumeOk = false then (t3, Outcome.failHalt) else
  let t4 := t3 ++ [Event.openKernelFile]
  if fw.openKernelFileOk = false then (t4, Outcome.failHalt) else
  let t5 := t4 ++ [Event.getFileInfo]
  if fw.getInfoOk = false then (t5, Outcome.failHalt) else
  let kernelSize := fw.fileSize % 2 ^ 64
  let pages := pagesFor kernelSize
  let t6 := t5 ++ [Event.allocatePagesAt efiLoaderCode pages KERNEL_LOAD_ADDR]
  if fw.allocAtAddrOk = true then
    efiMainTail fw t6 KERNEL_LOAD_ADDR kernelSize
  else
    let t7 := t6 ++ [Event.allocatePagesAny efiLoaderCode pages]
    if fw.allocAnyOk = false then (t7, Outcome.failHalt) else
    efiMainTail fw t7 (fw.allocAnyAddr % 2 ^ 64) kernelSize

/-- Number of `ExitBootServices` calls in a trace. -/
def countExitCalls (es : List Event) : Nat :=
  es.countP (fun e => match e with | Event.exitBootServices _ => true | _ => false)

/-- Number of `GetMemoryMap` calls in a trace. -/
def countMapCalls (es : List Event) : Nat :=
  es.countP (fun e => match e with | Event.getMemoryMap => true | _ => false)

/-- Number of `KernelFile->Read` calls in a trace. -/
def countReadCalls (es : List Event) : Nat :=
  es.countP (fun e => match e with | Event.readFile _ => true | _ => false)

/-- The five calls before the allocation all succeed. -/
def prologueOk (fw : Firmware) : Prop :=
  fw.handleLoadedImageOk = true ∧ fw.handleFileSystemOk = true ∧
  fw.openVolumeOk = true ∧ fw.openKernelFileOk = true ∧ fw.getInfoOk = true

/-- The run gets past the kernel read: the prologue succeeds, one of the
two allocation attempts succeeds, and the read returns a success status. -/
def loadOk (fw : Firmware) : Prop :=
  prologueOk fw ∧ (fw.allocAtAddrOk = true ∨ fw.allocAnyOk = true) ∧
  fw.readOk = true

/-- The `boot_info` contents determined by a firmware behaviour: the
fields assigned at `loader.c` lines 294-303, with `mem_map_size` refreshed
from the re-captured map when the first exit attempt failed (line 313). -/
def expectedBootInfo (fw : Firmware) : BootInfo :=
  { magic := BOOT_INFO_MAGIC
    mem_map_addr := fw.memoryMapBufferAddr
    mem_map_size := if fw.exit1Ok = true then fw.memMap1Size else fw.memMap2Size
    mem_map_desc_size := fw.memMap1DescSize
    framebuffer_addr := 0
    framebuffer_width := 0
    framebuffer_height := 0
    framebuffer_pitch := 0
    acpi_rsdp := findAcpiRsdp fw.configTables
    num_cpus := 0 }

/-- A fully successful firmware behaviour, used to instantiate theorems on
concrete runs. -/
def fwAllOk : Firmware :=
  { handleLoadedImageOk := true
    handleFileSystemOk := true
    openVolumeOk := true
    openKernelFileOk := true
    getInfoOk := true
    fileSize := 5000
    allocAtAddrOk := true
    allocAnyOk := true
    allocAnyAddr := 0x200000
    readOk := true
    readBytes := 5000
    configTables := []
    memoryMapBufferAddr := 0x90000
    memMap1Ok := true
    memMap1Size := 800
    memMap1Key := 41
    memMap1DescSize := 48
    memMap1DescVersion := 1
    exit1Ok := true
    memMap2Ok := true
    memMap2Size := 960
    memMap2Key := 43
    memMap2DescSize := 48
    memMap2DescVersion := 1
    exit2Ok := true }

/-- Firmware that fails both `ExitBootServices` attempts. -/
def fwExitFail : Firmware := { fwAllOk with exit1Ok := false, exit2Ok := false }

/-- Firmware whose first `ExitBootServices` fails and whose retry succeeds. -/
def fwRetry : Firmware := { fwAllOk with exit1Ok := false }

/-- Firmware that fails the `GetInfo` call (after the open succeeded). -/
def fwGetInfoFail : Firmware := { fwAllOk with getInfoOk := false }

/-- Firmware whose `Read` reports success but transfers zero bytes. -/
def fwShortRead : Firmware := { fwAllOk with readBytes := 0 }

/-- Firmware whose `Read` returns an error status. -/
def fwReadFail : Firmware := { fwAllOk with readOk := false }

/-- Firmware for which the fixed-address allocation fails and the
any-address fallback succeeds. -/
def fwFallbackAlloc : Firmware := { fwAllOk with allocAtAddrOk := false }

/-- A configuration-table GUID that agrees with `Acpi20TableGuid` in
`Data1`, `Data2` and `Data3` but differs in every `Data4` byte. -/
def acpi20LookalikeGuid : EfiGuid := ⟨0x8868e871, 0xe4f1, 0x11d3, [0, 0, 0, 0, 0, 0, 0, 0]⟩

/-- A configuration-table entry carrying `acpi20LookalikeGuid`. -/
def lookalikeEntry : ConfigTable := ⟨acpi20LookalikeGuid, 0xDEAD⟩

/-- A genuine ACPI 1.0 configuration-table entry. -/
def acpi10Entry : ConfigTable := ⟨acpi10TableGuid, 0x1000⟩

/-- A genuine ACPI 2.0 configuration-table entry. -/
def acpi20Entry : ConfigTable := ⟨acpi20TableGuid, 0x2000⟩

/-! ## Helper lemmas -/

/-- `List.find?` over a split list returns the marked element when
everything before it fails the predicate and it passes. -/
theorem find?_split {α : Type} (p : α → Bool) (pre : List α) (e : α) (post : List α)
    (hpre : ∀ x ∈ pre, p x = false) (he : p e = true) :
    (pre ++ e :: post).find? p = some e := by
  induction pre with
  | nil => exact List.find?_cons_of_pos _ he
  | cons a as ih =>
    have ha : ¬ p a = true := by simp [hpre a (by simp)]
    rw [List.cons_append, List.find?_cons_of_neg _ ha]
    exact ih fun x hx => hpre x (by simp [hx])

/-- `Event.closeKernelFile` occurs in the tail of the run exactly when it
was already in the accumulated trace or the read succeeded. -/
theorem closeKernel_mem_tail (fw : Firmware) (t : List Event) (a s : Nat) :
    Event.closeKernelFile ∈ (efiMainTail fw t a s).1 ↔
      (Event.closeKernelFile ∈ t ∨ fw.readOk = true) := by
  cases hr : fw.readOk <;> cases hm : fw.memMap1Ok <;> cases h1 : fw.exit1Ok <;>
    cases h2 : fw.exit2Ok <;> simp [efiMainTail, hr, hm, h1, h2]

/-- When the tail of the run ends in the kernel jump, the jump target is
the address the pages were allocated at and the passed structure is
`expectedBootInfo`. -/
theorem tail_jump_info (fw : Firmware) (t : List Event) (ka s a : Nat) (info : BootInfo)
    (h : (efiMainTail fw t ka s).2 = Outcome.kernelJump a info) :
    a = ka ∧ info = expectedBootInfo fw := by
  cases hr : fw.readOk <;> cases hm : fw.memMap1Ok <;> cases h1 : fw.exit1Ok <;>
    cases h2 : fw.exit2Ok <;> simp_all [efiMainTail, expectedBootInfo]

/-- The tail of the run never issues an `AllocatePages(AllocateAnyPages)`
call. -/
theorem allocAny_not_mem_tail (fw : Firmware) (t : List Event) (a s mt pg : Nat)
    (h : Event.allocatePagesAny mt pg ∉ t) :
    Event.allocatePagesAny mt pg ∉ (efiMainTail fw t a s).1 := by
  cases hr : fw.readOk <;> cases hm : fw.memMap1Ok <;> cases h1 : fw.exit1Ok <;>
    cases h2 : fw.exit2Ok <;> simp_all [efiMainTail]

/-- When the tail of the run ends in the kernel jump, its trace ends with
the `ExitBootServices` call that succeeded. -/
theorem exit_is_last_call_tail (fw : Firmware) (t : List Event) (ka s a : Nat)
    (info : BootInfo) (h : (efiMainTail fw t ka s).2 = Outcome.kernelJump a info) :
    ∃ u, (efiMainTail fw t ka s).1 =
      u ++ [Event.exitBootServices
        (if fw.exit1Ok = true then fw.memMap1Key else fw.memMap2Key)] := by
  cases h1 : fw.exit1Ok
  · cases hr : fw.readOk
    · simp_all [efiMainTail]
    · cases hm : fw.memMap1Ok
      · simp_all [efiMainTail]
      · cases h2 : fw.exit2Ok
        · simp_all [efiMainTail]
        · refine ⟨t ++ [Event.readFile s, Event.closeKernelFile, Event.closeRootDir,
            Event.getMemoryMap, Event.exitBootServices fw.memMap1Key,
            Event.getMemoryMap], ?_⟩
          simp [efiMainTail, hr, hm, h1, h2]
  · cases hr : fw.readOk
    · simp_all [efiMainTail]
    · cases hm : fw.memMap1Ok
      · simp_all [efiMainTail]
      · refine ⟨t ++ [Event.readFile s, Event.closeKernelFile, Event.closeRootDir,
          Event.getMemoryMap], ?_⟩
        simp [efiMainTail, hr, hm, h1]

/-! ## Claims -/

/-- C1: when the run reaches the exit handshake and the first
`ExitBootServices` call fails, the loader re-captures the memory map
exactly once and retries the exit exactly once (two `GetMemoryMap` calls
and two `ExitBootServices` calls in the whole run, never a third), and if
the retry also fails it ends in the silent infinite `hlt` loop. -/
theorem exit_retry_then_halt (fw : Firmware) (hl : loadOk fw) (hm : fw.memMap1Ok = true)
    (h1 : fw.exit1Ok = false) (h2 : fw.exit2Ok = false) :
    countExitCalls (efi_main fw).1 = 2 ∧ countMapCalls (efi_main fw).1 = 2 ∧
    (efi_main fw).2 = Outcome.postExitHalt := by
  obtain ⟨⟨p1, p2, p3, p4, p5⟩, ha, hr⟩ := hl
  rcases ha with ha | ha
  · simp [efi_main, p1, p2, p3, p4, p5, ha, efiMainTail, hr, hm, h1, h2,
      countExitCalls, countMapCalls, List.countP_append, List.countP_cons]
  · cases hf : fw.allocAtAddrOk <;>
      simp [efi_main, p1, p2, p3, p4, p5, ha, hf, efiMainTail, hr, hm, h1, h2,
        countExitCalls, countMapCalls, List.countP_append, List.countP_cons]

/-- Witness for C1: the double-exit-failure firmware halts after exactly
two exit attempts and two map captures. -/
theorem exit_retry_then_halt_witness :
    countExitCalls (efi_main fwExitFail).1 = 2 ∧ countMapCalls (efi_main fwExitFail).1 = 2 ∧
    (efi_main fwExitFail).2 = Outcome.postExitHalt :=
  exit_retry_then_halt fwExitFail ⟨⟨rfl, rfl, rfl, rfl, rfl⟩, Or.inl rfl, rfl⟩ rfl rfl rfl

/-- C2 counterexample: at file size `2^64 - 1` the 64-bit addition
`KernelSize + 4095` wraps, the computed page count is not
`ceil(S / 4096)` and the requested allocation does not cover the file. -/
theorem pages_wrap_counterexample :
    ¬ (pagesFor (2 ^ 64 - 1) = (2 ^ 64 - 1 + 4096 - 1) / 4096 ∧
       2 ^ 64 - 1 ≤ pagesFor (2 ^ 64 - 1) * 4096) := by decide

/-- C2 (amended): for every file size `S` with `S + 4095 < 2^64` the
loader computes `pageCount = ceil(S / 4096)`, the requested allocation of
`pageCount` pages covers the file (`pageCount * 4096 ≥ S`), and the
fixed-address allocation request carries exactly that page count. -/
theorem pages_ceil (fw : Firmware) (hp : prologueOk fw)
    (hS : fw.fileSize + 4095 < 2 ^ 64) :
    pagesFor (fw.fileSize % 2 ^ 64) = (fw.fileSize + 4096 - 1) / 4096 ∧
    fw.fileSize ≤ pagesFor (fw.fileSize % 2 ^ 64) * 4096 ∧
    Event.allocatePagesAt efiLoaderCode (pagesFor (fw.fileSize % 2 ^ 64)) KERNEL_LOAD_ADDR
      ∈ (efi_main fw).1 := by
  obtain ⟨p1, p2, p3, p4, p5⟩ := hp
  have hlt : fw.fileSize < 2 ^ 64 := by omega
  have hmod : fw.fileSize % 2 ^ 64 = fw.fileSize := Nat.mod_eq_of_lt hlt
  refine ⟨?_, ?_, ?_⟩
  · unfold pagesFor
    rw [hmod, Nat.mod_eq_of_lt hS]
    omega
  · unfold pagesFor
    rw [hmod, Nat.mod_eq_of_lt hS]
    omega
  · cases hf : fw.allocAtAddrOk <;> cases hg : fw.allocAnyOk <;>
    cases hr : fw.readOk <;> cases hm : fw.memMap1Ok <;>
    cases h1 : fw.exit1Ok <;> cases h2 : fw.exit2Ok <;>
      simp [efi_main, efiMainTail, p1, p2, p3, p4, p5, hf, hg, hr, hm, h1, h2]

/-- Witness for C2: a 5000-byte kernel takes 2 pages and the allocation
request carries that count. -/
theorem pages_ceil_witness :
    pagesFor (fwAllOk.fileSize % 2 ^ 64) = (fwAllOk.fileSize + 4096 - 1) / 4096 ∧
    fwAllOk.fileSize ≤ pagesFor (fwAllOk.fileSize % 2 ^ 64) * 4096 ∧
    Event.allocatePagesAt efiLoaderCode (pagesFor (fwAllOk.fileSize % 2 ^ 64)) KERNEL_LOAD_ADDR
      ∈ (efi_main fwAllOk).1 :=
  pages_ceil fwAllOk ⟨rfl, rfl, rfl, rfl, rfl⟩ (by decide)

/-- C3 counterexample: when `GetInfo` fails after the kernel file has
been opened, the run halts without ever issuing a `Close` on the kernel
file handle. -/
theorem close_skipped_counterexample :
    fwGetInfoFail.openKernelFileOk = true ∧
    Event.openKernelFile ∈ (efi_main fwGetInfoFail).1 ∧
    Event.closeKernelFile ∉ (efi_main fwGetInfoFail).1 ∧
    (efi_main fwGetInfoFail).2 = Outcome.failHalt := by decide

/-- C3 (amended): the kernel file handle is closed exactly on the success
path — the `Close` call occurs in a run if and only if the prologue, one
of the two allocations, and the read all succeed; on every failure path
after the open the loader halts forever without closing the handle. -/
theorem close_iff_read_succeeded (fw : Firmware) :
    Event.closeKernelFile ∈ (efi_main fw).1 ↔ loadOk fw := by
  cases c1 : fw.handleLoadedImageOk <;> cases c2 : fw.handleFileSystemOk <;>
  cases c3 : fw.openVolumeOk <;> cases c4 : fw.openKernelFileOk <;>
  cases c5 : fw.getInfoOk <;> cases c6 : fw.allocAtAddrOk <;>
  cases c7 : fw.allocAnyOk <;> cases c8 : fw.readOk <;>
    simp [efi_main, closeKernel_mem_tail, loadOk, prologueOk,
      c1, c2, c3, c4, c5, c6, c7, c8]

/-- C4 counterexample: a `Read` that reports success but transfers fewer
bytes than the file size is not detected — the boot proceeds to the
kernel jump instead of aborting. -/
theorem short_read_undetected_counterexample :
    fwShortRead.readOk = true ∧
    fwShortRead.readBytes < fwShortRead.fileSize ∧
    (efi_main fwShortRead).2 ≠ Outcome.failHalt ∧
    (efi_main fwShortRead).2 ≠ Outcome.postExitHalt := by decide

/-- C4 (amended): the kernel image read is issued exactly once, for
exactly the queried file size, and an I/O error (error status) is fatal;
only the returned status is checked, so the error-status case is the one
treated as fatal `ReadFailure`. -/
theorem read_once_exact (fw : Firmware) (hp : prologueOk fw)
    (ha : fw.allocAtAddrOk = true ∨ fw.allocAnyOk = true) :
    countReadCalls (efi_main fw).1 = 1 ∧
    Event.readFile (fw.fileSize % 2 ^ 64) ∈ (efi_main fw).1 ∧
    (fw.readOk = false → (efi_main fw).2 = Outcome.failHalt) := by
  obtain ⟨p1, p2, p3, p4, p5⟩ := hp
  rcases ha with ha | ha <;>
  cases hf : fw.allocAtAddrOk <;> cases hg : fw.allocAnyOk <;>
  cases hr : fw.readOk <;> cases hm : fw.memMap1Ok <;>
  cases h1 : fw.exit1Ok <;> cases h2 : fw.exit2Ok <;>
    simp_all [efi_main, efiMainTail, countReadCalls,
      List.countP_append, List.countP_cons]

/-- Witness for C4: with an error-status read the run issues one read of
the full file size and halts. -/
theorem read_once_exact_witness :
    countReadCalls (efi_main fwReadFail).1 = 1 ∧
    Event.readFile (fwReadFail.fileSize % 2 ^ 64) ∈ (efi_main fwReadFail).1 ∧
    (fwReadFail.readOk = false → (efi_main fwReadFail).2 = Outcome.failHalt) :=
  read_once_exact fwReadFail ⟨rfl, rfl, rfl, rfl, rfl⟩ (Or.inl rfl)

/-- C5 counterexample: a configuration table whose only entry differs
from both full ACPI GUIDs (its `Data4` bytes disagree) still yields a
non-null RSDP, so "no 2.0- or 1.0-tagged entry implies a null result" is
false when "tagged" means the full GUID. -/
theorem acpi_scan_lookalike_counterexample :
    lookalikeEntry.vendorGuid ≠ acpi20TableGuid ∧
    lookalikeEntry.vendorGuid ≠ acpi10TableGuid ∧
    findAcpiRsdp [lookalikeEntry] ≠ 0 := by decide

/-- C5 (amended): with "tagged" meaning a match on the first three GUID
fields (`Data1`, `Data2`, `Data3`) as the code compares them, the scan
returns the first 2.0-matching entry's pointer; only if no entry matches
the 2.0 fields does a second scan return the first 1.0-matching entry's
pointer; with no match at all the result is the null pointer, and that
null result is non-fatal: the boot still reaches the kernel jump,
forwarding whatever `findAcpiRsdp` returned. -/
theorem acpi_scan_order (tables : List ConfigTable) :
    ((∀ e ∈ tables, acpiMatch20 e.vendorGuid = false) →
      (∀ e ∈ tables, acpiMatch10 e.vendorGuid = false) → findAcpiRsdp tables = 0)
    ∧ (∀ pre e post, tables = pre ++ e :: post →
        (∀ x ∈ pre, acpiMatch20 x.vendorGuid = false) →
        acpiMatch20 e.vendorGuid = true → findAcpiRsdp tables = e.vendorTable)
    ∧ ((∀ e ∈ tables, acpiMatch20 e.vendorGuid = false) →
        ∀ pre e post, tables = pre ++ e :: post →
        (∀ x ∈ pre, acpiMatch10 x.vendorGuid = false) →
        acpiMatch10 e.vendorGuid = true → findAcpiRsdp tables = e.vendorTable)
    ∧ (∀ fw : Firmware, fw.configTables = tables → loadOk fw →
        fw.memMap1Ok = true → fw.exit1Ok = true →
        ∃ a info, (efi_main fw).2 = Outcome.kernelJump a info ∧
          info.acpi_rsdp = findAcpiRsdp tables) := by
  refine ⟨?_, ?_, ?_, ?_⟩
  · intro h20 h10
    unfold findAcpiRsdp
    rw [List.find?_eq_none.mpr (fun x hx => by simp [h20 x hx]),
        List.find?_eq_none.mpr (fun x hx => by simp [h10 x hx])]
  · intro pre e post ht hpre he
    subst ht
    unfold findAcpiRsdp
    rw [find?_split _ pre e post hpre he]
  · intro h20 pre e post ht hpre he
    subst ht
    unfold findAcpiRsdp
    rw [List.find?_eq_none.mpr (fun x hx => by simp [h20 x hx]),
        find?_split _ pre e post hpre he]
  · intro fw hct hl hm h1
    obtain ⟨⟨p1, p2, p3, p4, p5⟩, ha, hr⟩ := hl
    subst hct
    rcases ha with ha | ha <;> cases hf : fw.allocAtAddrOk <;>
      simp_all [efi_main, efiMainTail] <;>
      exact ⟨_, _, ⟨rfl, rfl⟩, rfl⟩

/-- Witness for C5: with a 1.0 entry listed before a 2.0 entry, the scan
still selects the 2.0 entry's pointer. -/
theorem acpi_scan_order_witness :
    findAcpiRsdp [acpi10Entry, acpi20Entry] = acpi20Entry.vendorTable :=
  (acpi_scan_order [acpi10Entry, acpi20Entry]).2.1 [acpi10Entry] acpi20Entry []
    rfl (by decide) (by decide)

/-- C6: the allocation is first requested at `KERNEL_LOAD_ADDR` with the
`EfiLoaderCode` type; only if that fails is one retry made at any address
with the same page count and type; failure of both is fatal; and the
final jump targets the address actually allocated — the fixed address
when the first attempt succeeded, the fallback address otherwise. -/
theorem alloc_fixed_then_fallback (fw : Firmware) (hp : prologueOk fw) :
    (Event.allocatePagesAt efiLoaderCode (pagesFor (fw.fileSize % 2 ^ 64)) KERNEL_LOAD_ADDR
        ∈ (efi_main fw).1)
    ∧ (fw.allocAtAddrOk = false →
        Event.allocatePagesAny efiLoaderCode (pagesFor (fw.fileSize % 2 ^ 64))
          ∈ (efi_main fw).1)
    ∧ (fw.allocAtAddrOk = true →
        ∀ mt pg, Event.allocatePagesAny mt pg ∉ (efi_main fw).1)
    ∧ (fw.allocAtAddrOk = false → fw.allocAnyOk = false →
        (efi_main fw).2 = Outcome.failHalt)
    ∧ (∀ a info, (efi_main fw).2 = Outcome.kernelJump a info →
        a = if fw.allocAtAddrOk = true then KERNEL_LOAD_ADDR
            else fw.allocAnyAddr % 2 ^ 64) := by
  obtain ⟨p1, p2, p3, p4, p5⟩ := hp
  refine ⟨?_, ?_, ?_, ?_, ?_⟩
  · cases hf : fw.allocAtAddrOk <;> cases hg : fw.allocAnyOk <;>
    cases hr : fw.readOk <;> cases hm : fw.memMap1Ok <;>
    cases h1 : fw.exit1Ok <;> cases h2 : fw.exit2Ok <;>
      simp [efi_main, efiMainTail, p1, p2, p3, p4, p5, hf, hg, hr, hm, h1, h2]
  · intro hf
    cases hg : fw.allocAnyOk <;>
    cases hr : fw.readOk <;> cases hm : fw.memMap1Ok <;>
    cases h1 : fw.exit1Ok <;> cases h2 : fw.exit2Ok <;>
      simp [efi_main, efiMainTail, p1, p2, p3, p4, p5, hf, hg, hr, hm, h1, h2]
  · intro hf mt pg
    simp [efi_main, p1, p2, p3, p4, p5, hf]
    apply allocAny_not_mem_tail
    simp
  · intro hf hg
    simp [efi_main, p1, p2, p3, p4, p5, hf, hg]
  · intro a info h
    cases hf : fw.allocAtAddrOk
    · cases hg : fw.allocAnyOk
      · simp [efi_main, p1, p2, p3, p4, p5, hf, hg] at h
      · simp [efi_main, p1, p2, p3, p4, p5, hf, hg] at h
        obtain ⟨ha, _⟩ := tail_jump_info _ _ _ _ _ _ h
        simp [hf, ha]
    · simp [efi_main, p1, p2, p3, p4, p5, hf] at h
      obtain ⟨ha, _⟩ := tail_jump_info _ _ _ _ _ _ h
      simp [hf, ha]

/-- Witness for C6: when the fixed-address allocation fails, the fallback
any-address allocation is issued with the same page count and type. -/
theorem alloc_fixed_then_fallback_witness :
    Event.allocatePagesAny efiLoaderCode (pagesFor (fwFallbackAlloc.fileSize % 2 ^ 64))
      ∈ (efi_main fwFallbackAlloc).1 :=
  (alloc_fixed_then_fallback fwFallbackAlloc ⟨rfl, rfl, rfl, rfl, rfl⟩).2.1 rfl

/-- C7: the `boot_info` passed to the kernel carries the magic constant
`0x424F4F54494E464F`, the static memory-map buffer address, the map size
and descriptor size from the captured snapshot (the descriptor size
always from the first capture), all four framebuffer fields zero, the
ACPI RSDP pointer as found (zero when not found), and a CPU count of 0. -/
theorem boot_info_fields (fw : Firmware) (a : Nat) (info : BootInfo)
    (h : (efi_main fw).2 = Outcome.kernelJump a info) :
    info.magic = BOOT_INFO_MAGIC ∧
    info.mem_map_addr = fw.memoryMapBufferAddr ∧
    info.mem_map_size = (if fw.exit1Ok = true then fw.memMap1Size else fw.memMap2Size) ∧
    info.mem_map_desc_size = fw.memMap1DescSize ∧
    info.framebuffer_addr = 0 ∧ info.framebuffer_width = 0 ∧
    info.framebuffer_height = 0 ∧ info.framebuffer_pitch = 0 ∧
    info.acpi_rsdp = findAcpiRsdp fw.configTables ∧
    info.num_cpus = 0 := by
  cases c1 : fw.handleLoadedImageOk <;> cases c2 : fw.handleFileSystemOk <;>
  cases c3 : fw.openVolumeOk <;> cases c4 : fw.openKernelFileOk <;>
  cases c5 : fw.getInfoOk <;> cases c6 : fw.allocAtAddrOk <;> cases c7 : fw.allocAnyOk <;>
    simp [efi_main, c1, c2, c3, c4, c5, c6, c7] at h <;>
    (obtain ⟨_, hi⟩ := tail_jump_info _ _ _ _ _ _ h; subst hi; simp [expectedBootInfo])

/-- Witness for C7: the fully successful firmware run jumps with the
expected `boot_info` contents. -/
theorem boot_info_fields_witness :
    (expectedBootInfo fwAllOk).magic = BOOT_INFO_MAGIC ∧
    (expectedBootInfo fwAllOk).mem_map_addr = fwAllOk.memoryMapBufferAddr ∧
    (expectedBootInfo fwAllOk).mem_map_size =
      (if fwAllOk.exit1Ok = true then fwAllOk.memMap1Size else fwAllOk.memMap2Size) ∧
    (expectedBootInfo fwAllOk).mem_map_desc_size = fwAllOk.memMap1DescSize ∧
    (expectedBootInfo fwAllOk).framebuffer_addr = 0 ∧
    (expectedBootInfo fwAllOk).framebuffer_width = 0 ∧
    (expectedBootInfo fwAllOk).framebuffer_height = 0 ∧
    (expectedBootInfo fwAllOk).framebuffer_pitch = 0 ∧
    (expectedBootInfo fwAllOk).acpi_rsdp = findAcpiRsdp fwAllOk.configTables ∧
    (expectedBootInfo fwAllOk).num_cpus = 0 :=
  boot_info_fields fwAllOk KERNEL_LOAD_ADDR (expectedBootInfo fwAllOk) (by decide)

/-- C8: in every run that ends in the kernel jump, the successful
`ExitBootServices` call is the very last firmware-service call of the
run — no protocol, file, allocation or memory-map call follows it. -/
theorem exit_is_last_call (fw : Firmware) (a : Nat) (info : BootInfo)
    (h : (efi_main fw).2 = Outcome.kernelJump a info) :
    ∃ u, (efi_main fw).1 =
      u ++ [Event.exitBootServices
        (if fw.exit1Ok = true then fw.memMap1Key else fw.memMap2Key)] := by
  cases c1 : fw.handleLoadedImageOk <;> cases c2 : fw.handleFileSystemOk <;>
  cases c3 : fw.openVolumeOk <;> cases c4 : fw.openKernelFileOk <;>
  cases c5 : fw.getInfoOk <;> cases c6 : fw.allocAtAddrOk <;> cases c7 : fw.allocAnyOk <;>
    simp [efi_main, c1, c2, c3, c4, c5, c6, c7] at h ⊢ <;>
    exact exit_is_last_call_tail _ _ _ _ _ _ h

/-- Witness for C8: the fully successful run's trace ends with its
(successful) exit call. -/
theorem exit_is_last_call_witness :
    ∃ u, (efi_main fwAllOk).1 =
      u ++ [Event.exitBootServices
        (if fwAllOk.exit1Ok = true then fwAllOk.memMap1Key else fwAllOk.memMap2Key)] :=
  exit_is_last_call fwAllOk KERNEL_LOAD_ADDR (expectedBootInfo fwAllOk) (by decide)

/-- C9: the configuration-table matches compare only `Data1`, `Data2`
and `Data3` — they cannot distinguish two GUIDs that agree on those
three fields — and any single-entry table whose GUID passes the 2.0
comparison has its pointer returned as the RSDP, whatever its `Data4`. -/
theorem acpi_match_data4_ignored (g g' : EfiGuid) (h1 : g.data1 = g'.data1)
    (h2 : g.data2 = g'.data2) (h3 : g.data3 = g'.data3) (p : Nat) :
    acpiMatch20 g = acpiMatch20 g' ∧ acpiMatch10 g = acpiMatch10 g' ∧
    (acpiMatch20 g = true → findAcpiRsdp [⟨g, p⟩] = p) := by
  refine ⟨?_, ?_, ?_⟩
  · simp [acpiMatch20, h1, h2, h3]
  · simp [acpiMatch10, h1, h2, h3]
  · intro hm
    unfold findAcpiRsdp
    rw [List.find?_cons_of_pos]
    exact hm

/-- Witness for C9: the lookalike GUID (correct `Data1`-`Data3`, wrong
`Data4`) is indistinguishable from the real ACPI 2.0 GUID for both
comparisons, and its table's pointer is returned as the RSDP. -/
theorem acpi_match_data4_ignored_witness :
    acpiMatch20 acpi20LookalikeGuid = acpiMatch20 acpi20TableGuid ∧
    acpiMatch10 acpi20LookalikeGuid = acpiMatch10 acpi20TableGuid ∧
    findAcpiRsdp [⟨acpi20LookalikeGuid, 0xDEAD⟩] = 0xDEAD :=
  ⟨(acpi_match_data4_ignored acpi20LookalikeGuid acpi20TableGuid rfl rfl rfl 0xDEAD).1,
   (acpi_match_data4_ignored acpi20LookalikeGuid acpi20TableGuid rfl rfl rfl 0xDEAD).2.1,
   (acpi_match_data4_ignored acpi20LookalikeGuid acpi20TableGuid rfl rfl rfl 0xDEAD).2.2
     (by decide)⟩

/-- C10: on the retry path the status of the second `GetMemoryMap` is
discarded (the run is unchanged whatever that status is, and the second
exit is attempted regardless: two map captures and two exit calls), and
in the `boot_info` only `mem_map_size` is refreshed from the re-capture
while `mem_map_desc_size` keeps its value from the first capture. -/
theorem retry_recapture_status_ignored (fw : Firmware) (hl : loadOk fw)
    (hm : fw.memMap1Ok = true) (h1 : fw.exit1Ok = false) :
    (∀ b, efi_main { fw with memMap2Ok := b } = efi_main fw)
    ∧ countMapCalls (efi_main fw).1 = 2
    ∧ countExitCalls (efi_main fw).1 = 2
    ∧ (∀ a info, (efi_main fw).2 = Outcome.kernelJump a info →
        info.mem_map_size = fw.memMap2Size ∧
        info.mem_map_desc_size = fw.memMap1DescSize) := by
  obtain ⟨⟨p1, p2, p3, p4, p5⟩, ha, hr⟩ := hl
  refine ⟨fun b => rfl, ?_, ?_, ?_⟩
  · rcases ha with ha | ha <;> cases hf : fw.allocAtAddrOk <;> cases h2 : fw.exit2Ok <;>
      simp_all [efi_main, efiMainTail, countMapCalls, List.countP_append, List.countP_cons]
  · rcases ha with ha | ha <;> cases hf : fw.allocAtAddrOk <;> cases h2 : fw.exit2Ok <;>
      simp_all [efi_main, efiMainTail, countExitCalls, List.countP_append, List.countP_cons]
  · intro a info h
    rcases ha with ha | ha
    · simp [efi_main, p1, p2, p3, p4, p5, ha] at h
      obtain ⟨_, hi⟩ := tail_jump_info _ _ _ _ _ _ h
      subst hi
      simp [expectedBootInfo, h1]
    · cases hf : fw.allocAtAddrOk
      · simp [efi_main, p1, p2, p3, p4, p5, hf, ha] at h
        obtain ⟨_, hi⟩ := tail_jump_info _ _ _ _ _ _ h
        subst hi
        simp [expectedBootInfo, h1]
      · simp [efi_main, p1, p2, p3, p4, p5, hf] at h
        obtain ⟨_, hi⟩ := tail_jump_info _ _ _ _ _ _ h
        subst hi
        simp [expectedBootInfo, h1]

/-- Witness for C10: a run whose first exit fails and whose retry
succeeds performs exactly two map captures and two exit calls. -/
theorem retry_recapture_status_ignored_witness :
    countMapCalls (efi_main fwRetry).1 = 2 ∧ countExitCalls (efi_main fwRetry).1 = 2 :=
  ⟨(retry_recapture_status_ignored fwRetry ⟨⟨rfl, rfl, rfl, rfl, rfl⟩, Or.inl rfl, rfl⟩
      rfl rfl).2.1,
   (retry_recapture_status_ignored fwRetry ⟨⟨rfl, rfl, rfl, rfl, rfl⟩, Or.inl rfl, rfl⟩
      rfl rfl).2.2.1⟩

end Loader
